import Mathlib

/-!
Verification development for the support-toolkit log analyzer
(`src/main.py`).  The program is a single-pass line scanner: each line of
the input file is stripped, matched against the anchored regular expression
`^(?P<ts>\\d{4}-\\d{2}-\\d{2}\\s+\\d{2}:\\d{2}:\\d{2})\\s+(?P<level>INFO|WARNING|ERROR)\\s+.*?\\bpath=(?P<path>\\S+)?`
and folded into counters (`level_counts`, `error_paths`, `total_lines`,
`parsed_lines`, `invalid_lines`); a report record is then assembled and
rendered to JSON, HTML and a stdout summary.
The embedding below works over `List Char` for line content.  The character
classes `\\d`, `\\s`, `\\w`, `\\S` and `str.strip` are modelled over their
ASCII parts (the log grammar itself is ASCII-only); bytes are modelled as
`Nat` values.
-/

/-- Python `\d` restricted to ASCII: the characters 0-9. -/
def isPyDigit (c : Char) : Bool :=
  decide (48 ≤ c.toNat) && decide (c.toNat ≤ 57)

/-- Python `\s` restricted to ASCII: space, tab, newline, carriage return,
vertical tab, form feed. -/
def isPySpace (c : Char) : Bool :=
  c == ' ' || c == '\t' || c == '\n' || c == '\r' || c == '\x0b' || c == '\x0c'

/-- Python `\w` restricted to ASCII: letters, digits and underscore.
Used only for the `\b` word-boundary test in front of `path=`. -/
def isPyWord (c : Char) : Bool :=
  (decide (97 ≤ c.toNat) && decide (c.toNat ≤ 122)) ||
  (decide (65 ≤ c.toNat) && decide (c.toNat ≤ 90)) ||
  isPyDigit c || c == '_'

/-- Python `line.strip()`: drop leading and trailing whitespace. -/
def pyStrip (s : List Char) : List Char :=
  ((s.dropWhile isPySpace).reverse.dropWhile isPySpace).reverse

/-- Holds when, as `startsWith pat s`, `pat` is an initial segment of `s`
(the test the regex engine performs for a literal such as `path=`). -/
def startsWith : List Char → List Char → Bool
  | [], _ => true
  | _ :: _, [] => false
  | p :: ps, c :: cs => p == c && startsWith ps cs

/-- The closed severity set of the analyzer (`LEVELS` in the source). -/
inductive Level
  | INFO
  | WARNING
  | ERROR
deriving DecidableEq

def LEVELS : List Level := [Level.INFO, Level.WARNING, Level.ERROR]

def levelStr : Level → String
  | Level.INFO => "INFO"
  | Level.WARNING => "WARNING"
  | Level.ERROR => "ERROR"

/-- The data extracted from a matched line that the aggregation loop uses:
`m.group("level")` and `m.group("path")`.  (The timestamp group is matched
but never read by `analyze_log`, so it is not stored.) -/
structure LogRecord where
  level : Level
  path : Option (List Char)
deriving DecidableEq

/-- Consume exactly `n` `\d` characters (the regex `\d{n}`). -/
def takeDigits : Nat → List Char → Option (List Char)
  | 0, cs => some cs
  | _ + 1, [] => none
  | n + 1, c :: cs => if isPyDigit c then takeDigits n cs else none

/-- Consume one fixed literal character. -/
def expectChar (a : Char) : List Char → Option (List Char)
  | [] => none
  | c :: cs => if c == a then some cs else none

/-- Consume `\s+` (at least one whitespace character, maximal munch).
In `LOG_RE` every `\s+` is followed by a token that cannot start with
whitespace, so the greedy match never has to backtrack. -/
def skipSpaces1 : List Char → Option (List Char)
  | [] => none
  | c :: cs => if isPySpace c then some (cs.dropWhile isPySpace) else none

/-- The anchored timestamp part of `LOG_RE`:
`^\d{4}-\d{2}-\d{2}\s+\d{2}:\d{2}:\d{2}\s+`. -/
def matchTs (s : List Char) : Option (List Char) := do
  let s ← takeDigits 4 s
  let s ← expectChar '-' s
  let s ← takeDigits 2 s
  let s ← expectChar '-' s
  let s ← takeDigits 2 s
  let s ← skipSpaces1 s
  let s ← takeDigits 2 s
  let s ← expectChar ':' s
  let s ← takeDigits 2 s
  let s ← expectChar ':' s
  let s ← takeDigits 2 s
  skipSpaces1 s

/-- The severity part of `LOG_RE`: `(?P<level>INFO|WARNING|ERROR)\s+`.
The three alternatives start with distinct letters, so testing them in
order is exactly the regex alternation. -/
def matchLevel (s : List Char) : Option (Level × List Char) :=
  if startsWith "INFO".data s then
    (skipSpaces1 (s.drop 4)).map (fun r => (Level.INFO, r))
  else if startsWith "WARNING".data s then
    (skipSpaces1 (s.drop 7)).map (fun r => (Level.WARNING, r))
  else if startsWith "ERROR".data s then
    (skipSpaces1 (s.drop 5)).map (fun r => (Level.ERROR, r))
  else none

/-- The tail of `LOG_RE`: `.*?\bpath=(?P<path>\S+)?`.  The lazy `.*?`
finds the leftmost position carrying a word boundary followed by the
literal `path=`; the optional greedy `(?P<path>\S+)?` then captures the
maximal non-whitespace run, yielding group `path = None` when that run is
empty.  `prev` is the character before the current position (initially the
last of the whitespace characters consumed after the severity token).
Returns `none` when no `\bpath=` occurs, i.e. the whole regex fails. -/
def findPath (prev : Char) : List Char → Option (Option (List Char))
  | [] => none
  | c :: cs =>
    if !isPyWord prev && startsWith "path=".data (c :: cs) then
      let tok := ((c :: cs).drop 5).takeWhile (fun d => !isPySpace d)
      some (if tok = [] then none else some tok)
    else
      findPath c cs

/-- Model of `LOG_RE.search(line)` on an already-stripped line: the pattern is
anchored with `^` (and `re.MULTILINE` is off), so only position 0 can
match.  Returns the groups the program reads, or `none` when the line is
classified invalid. -/
def log_match (s : List Char) : Option LogRecord :=
  match matchTs s with
  | none => none
  | some rest =>
    match matchLevel rest with
    | none => none
    | some (lvl, rest2) =>
      match findPath ' ' rest2 with
      | none => none
      | some p => some { level := lvl, path := p }

/-- One `counter[key] += 1` on a Python `Counter`/`dict`: an existing key
keeps its position (value updated in place), a new key is appended at the
end.  The association list therefore records insertion order, as Python
dicts do. -/
def bump {α : Type} [DecidableEq α] (k : α) : List (α × Nat) → List (α × Nat)
  | [] => [(k, 1)]
  | (k', n) :: rest => if k = k' then (k', n + 1) :: rest else (k', n) :: bump k rest

/-- Python `counter.get(key, 0)` / `Counter.__getitem__`: the stored count, or 0. -/
def counter_get {α : Type} [DecidableEq α] (l : List (α × Nat)) (k : α) : Nat :=
  match l.find? (fun p => decide (p.1 = k)) with
  | some p => p.2
  | none => 0

/-- The mutable state of the `analyze_log` loop. -/
structure AggState where
  total_lines : Nat
  parsed_lines : Nat
  invalid_lines : Nat
  level_counts : List (Level × Nat)
  error_paths : List (List Char × Nat)
deriving DecidableEq

def initState : AggState :=
  { total_lines := 0, parsed_lines := 0, invalid_lines := 0
    level_counts := [], error_paths := [] }

/-- One iteration of the `for line in f` loop of `analyze_log`:
count the line, strip it, skip it when blank, otherwise match it against
`LOG_RE` and update the counters. -/
def step_line (st : AggState) (raw : List Char) : AggState :=
  if pyStrip raw = [] then
    { st with total_lines := st.total_lines + 1 }
  else
    match log_match (pyStrip raw) with
    | none =>
      { st with total_lines := st.total_lines + 1, invalid_lines := st.invalid_lines + 1 }
    | some r =>
      match r.path with
      | some p =>
        if r.level = Level.ERROR then
          { st with
            total_lines := st.total_lines + 1, parsed_lines := st.parsed_lines + 1,
            level_counts := bump r.level st.level_counts,
            error_paths := bump p st.error_paths }
        else
          { st with
            total_lines := st.total_lines + 1, parsed_lines := st.parsed_lines + 1,
            level_counts := bump r.level st.level_counts }
      | none =>
        { st with
          total_lines := st.total_lines + 1, parsed_lines := st.parsed_lines + 1,
          level_counts := bump r.level st.level_counts }

/-- The whole aggregation loop of `analyze_log` over the file's lines. -/
def analyze_lines (lines : List (List Char)) : AggState :=
  lines.foldl step_line initState

/-- The descending-count order used by `Counter.most_common`
(via `heapq.nlargest(n, items, key=itemgetter(1))`). -/
def cge {α : Type} (a b : α × Nat) : Prop := b.2 ≤ a.2

instance {α : Type} : DecidableRel (α := α × Nat) cge :=
  fun a b => Nat.decLe b.2 a.2

instance {α : Type} : IsTotal (α × Nat) cge :=
  ⟨fun a b => Nat.le_total b.2 a.2⟩

instance {α : Type} : IsTrans (α × Nat) cge :=
  ⟨fun _ _ _ hab hbc => Nat.le_trans hbc hab⟩

/-- Stable sort of counter entries by count descending: `heapq.nlargest`
is documented as (and implemented to be) equivalent to
`sorted(items, key=count, reverse=True)`, which keeps entries of equal
count in their original (insertion) order. -/
def sortDesc {α : Type} (l : List (α × Nat)) : List (α × Nat) :=
  List.insertionSort cge l

/-- Python `Counter.most_common(n)` for an `int` argument `n`: the entries
sorted by count descending (stable), truncated to `n` (empty for
`n ≤ 0`). -/
def most_common {α : Type} (n : Int) (l : List (α × Nat)) : List (α × Nat) :=
  (sortDesc l).take n.toNat

/-- The report dictionary built at the end of `analyze_log`.
`generated_at` is `datetime.utcnow().isoformat() + "Z"`; the clock value
is a parameter of the model.  `level_counts` is `dict(level_counts)`: the
same insertion-ordered entries, holding only levels that were actually
counted. -/
structure Report where
  generated_at : String
  file : String
  total_lines : Nat
  parsed_lines : Nat
  invalid_lines : Nat
  level_counts : List (Level × Nat)
  top_error_paths : List (List Char × Nat)
deriving DecidableEq

def build_report (clock : String) (file_path : String) (st : AggState) (top_n : Int) : Report :=
  { generated_at := clock
    file := file_path
    total_lines := st.total_lines
    parsed_lines := st.parsed_lines
    invalid_lines := st.invalid_lines
    level_counts := st.level_counts
    top_error_paths := most_common top_n st.error_paths }

/-- The replacement character U+FFFD inserted by `errors="replace"`. -/
def repl : Char := Char.ofNat 0xFFFD

/-- A UTF-8 continuation byte (0x80-0xBF). -/
def isCont (b : Nat) : Bool := decide (128 ≤ b) && decide (b < 192)

/-- Valid second byte for the three-byte lead `b` (UTF-8 excludes overlong
encodings for 0xE0 and surrogates for 0xED). -/
def cont2of3 (b b2 : Nat) : Bool :=
  if b = 224 then decide (160 ≤ b2) && decide (b2 < 192)
  else if b = 237 then decide (128 ≤ b2) && decide (b2 < 160)
  else isCont b2

/-- Valid second byte for the four-byte lead `b` (excludes overlong
encodings for 0xF0 and values past U+10FFFF for 0xF4). -/
def cont2of4 (b b2 : Nat) : Bool :=
  if b = 240 then decide (144 ≤ b2) && decide (b2 < 192)
  else if b = 244 then decide (128 ≤ b2) && decide (b2 < 144)
  else isCont b2

/-- Python `bytes.decode("utf-8", errors="replace")`: a total decoder.  Valid
sequences decode to their scalar value; an invalid or truncated sequence
yields one U+FFFD for its maximal valid subpart (CPython's policy) and
decoding resumes at the next byte.  Totality is the point: no byte
content can raise, which is what `errors="replace"` guarantees.
`decodeOne b bs` handles one sequence whose first byte is `b`, returning
the decoded character and the undecoded remainder of the input. -/
def decodeOne (b : Nat) (bs : List Nat) : Char × List Nat :=
  if b < 128 then (Char.ofNat b, bs)
  else if 194 ≤ b ∧ b ≤ 223 then
    match bs with
    | [] => (repl, [])
    | b2 :: bs2 =>
      if isCont b2 then (Char.ofNat ((b - 192) * 64 + (b2 - 128)), bs2)
      else (repl, b2 :: bs2)
  else if 224 ≤ b ∧ b ≤ 239 then
    match bs with
    | [] => (repl, [])
    | b2 :: bs2 =>
      if cont2of3 b b2 then
        match bs2 with
        | [] => (repl, [])
        | b3 :: bs3 =>
          if isCont b3 then
            (Char.ofNat ((b - 224) * 4096 + (b2 - 128) * 64 + (b3 - 128)), bs3)
          else (repl, b3 :: bs3)
      else (repl, b2 :: bs2)
  else if 240 ≤ b ∧ b ≤ 244 then
    match bs with
    | [] => (repl, [])
    | b2 :: bs2 =>
      if cont2of4 b b2 then
        match bs2 with
        | [] => (repl, [])
        | b3 :: bs3 =>
          if isCont b3 then
            match bs3 with
            | [] => (repl, [])
            | b4 :: bs4 =>
              if isCont b4 then
                (Char.ofNat ((b - 240) * 262144 + (b2 - 128) * 4096 +
                  (b3 - 128) * 64 + (b4 - 128)), bs4)
              else (repl, b4 :: bs4)
          else (repl, b3 :: bs3)
      else (repl, b2 :: bs2)
  else (repl, bs)

/-- Driver for the decoder, structurally recursive on a fuel counter so
that it evaluates in the kernel.  Because `decodeOne` consumes at least
one byte (`decodeOne_length`), fuel equal to the number of bytes is
always enough and the `0` case is never reached from `utf8Decode`. -/
def utf8DecodeAux : Nat → List Nat → List Char
  | 0, _ => []
  | _ + 1, [] => []
  | fuel + 1, b :: bs =>
    (decodeOne b bs).1 :: utf8DecodeAux fuel (decodeOne b bs).2

def utf8Decode (l : List Nat) : List Char := utf8DecodeAux l.length l

/-- Text-mode line iteration (`for line in f`, universal newlines): split
at `\n`, `\r\n` or `\r`.  The terminators themselves are irrelevant to the
program because every line is immediately stripped, so lines are returned
without them; a trailing terminator does not produce an extra empty line,
and an empty text yields no lines. -/
def splitLinesAux (acc : List Char) : List Char → List (List Char)
  | [] => if acc = [] then [] else [acc.reverse]
  | '\r' :: '\n' :: cs => acc.reverse :: splitLinesAux [] cs
  | '\n' :: cs => acc.reverse :: splitLinesAux [] cs
  | '\r' :: cs => acc.reverse :: splitLinesAux [] cs
  | c :: cs => splitLinesAux (c :: acc) cs

def splitLines (cs : List Char) : List (List Char) := splitLinesAux [] cs

/-- The errors `analyze_log` can raise (`FileNotFoundError`). -/
inductive RunError
  | fileNotFound
deriving DecidableEq

/-- The whole of `analyze_log(file_path, top_n)`: check the source exists
(`os.path.isfile`) before reading anything, then decode, iterate the
lines, and assemble the report dictionary.  `file_exists` models the
filesystem, `contents` the file's bytes, `clock` the
`datetime.utcnow()` value. -/
def analyze_log (file_exists : Bool) (clock : String) (file_path : String)
    (contents : List Nat) (top_n : Int) : Except RunError Report :=
  if file_exists then
    Except.ok (build_report clock file_path (analyze_lines (splitLines (utf8Decode contents))) top_n)
  else
    Except.error RunError.fileNotFound

/-- The lines printed by `print_summary(report)`, in order (each `print`
with an embedded `\n` contributes two lines).  All three levels are always
listed, reading missing keys as 0 via `.get(lvl, 0)`; an empty
`top_error_paths` prints the explicit `(none)` line. -/
def print_summary (r : Report) : List String :=
  ["",
   "=== Support Toolkit Report ===",
   "File: " ++ r.file,
   "Generated: " ++ r.generated_at,
   "Total lines: " ++ toString r.total_lines,
   "Parsed lines: " ++ toString r.parsed_lines,
   "Invalid lines: " ++ toString r.invalid_lines,
   "",
   "Level counts:"]
  ++ LEVELS.map (fun lvl => "  " ++ levelStr lvl ++ ": " ++ toString (counter_get r.level_counts lvl))
  ++ ["",
      "Top ERROR paths:"]
  ++ (if r.top_error_paths = [] then ["  (none)"]
      else r.top_error_paths.map (fun pc => "  " ++ pc.1.asString ++ ": " ++ toString pc.2))

/-- The table rows emitted by the `for path, cnt in report["top_error_paths"]`
loop of `save_html_report`: one `<tr>` per entry, and nothing at all when
the list is empty. -/
def html_rows : List (List Char × Nat) → String
  | [] => ""
  | (p, c) :: rest =>
    "<tr><td>" ++ p.asString ++ "</td><td>" ++ toString c ++ "</td></tr>" ++ html_rows rest

/-- The exact `html_content` string assembled by `save_html_report`
(the f-string, with `{{`/`}}` already collapsed to literal braces,
followed by the row loop and the closing fragment).  Missing level keys
are read as 0 via `.get`. -/
def html_content (r : Report) : String :=
  "\n    <html>\n    <head>\n        <title>Support Toolkit Report</title>\n        <style>\n            body \x7b font-family: Arial; margin: 40px; \x7d\n            table \x7b border-collapse: collapse; width: 50%; \x7d\n            th, td \x7b border: 1px solid #ccc; padding: 8px; text-align: left; \x7d\n            th \x7b background-color: #f2f2f2; \x7d\n            .error \x7b color: red; \x7d\n        </style>\n    </head>\n    <body>\n        <h1>Support Toolkit Report</h1>\n        <p><strong>File:</strong> "
  ++ r.file
  ++ "</p>\n        <p><strong>Total lines:</strong> "
  ++ toString r.total_lines
  ++ "</p>\n        <p><strong>Parsed lines:</strong> "
  ++ toString r.parsed_lines
  ++ "</p>\n\n        <h2>Log Levels</h2>\n        <ul>\n            <li>INFO: "
  ++ toString (counter_get r.level_counts Level.INFO)
  ++ "</li>\n            <li>WARNING: "
  ++ toString (counter_get r.level_counts Level.WARNING)
  ++ "</li>\n            <li class=\"error\">ERROR: "
  ++ toString (counter_get r.level_counts Level.ERROR)
  ++ "</li>\n        </ul>\n\n        <h2>Top ERROR Paths</h2>\n        <table>\n            <tr><th>Path</th><th>Count</th></tr>\n    "
  ++ html_rows r.top_error_paths
  ++ "\n        </table>\n    </body>\n    </html>\n    "

/-- The two output files `main` writes on success.  `save_report` dumps
the report dictionary as JSON (the payload is the report record itself);
`save_html_report` writes the rendered `html_content`. -/
inductive OutDoc
  | json (r : Report)
  | html (content : String)
deriving DecidableEq

/-- The driver `main()`: analyze, print the summary, then write `output/report.json`
and `output/report.html` (in that order).  A `FileNotFoundError` raised by
`analyze_log` is uncaught, so the process terminates before any output
file is created. -/
def run_main (file_exists : Bool) (clock : String) (file_path : String)
    (contents : List Nat) (top_n : Int) :
    Except RunError (Report × List String × List (String × OutDoc)) :=
  match analyze_log file_exists clock file_path contents top_n with
  | Except.error e => Except.error e
  | Except.ok r =>
    Except.ok (r, print_summary r,
      [("output/report.json", OutDoc.json r),
       ("output/report.html", OutDoc.html (html_content r))])

/-- The output files a run leaves behind: none when it fails. -/
def writes_of (x : Except RunError (Report × List String × List (String × OutDoc))) :
    List (String × OutDoc) :=
  match x with
  | Except.error _ => []
  | Except.ok (_, _, ws) => ws

/-- Whether `needle` occurs as a contiguous substring of `hay`. -/
def hasSub (needle : List Char) : List Char → Bool
  | [] => startsWith needle []
  | c :: cs => startsWith needle (c :: cs) || hasSub needle cs

/-- Sum of the stored counts of a counter (`sum(counter.values())`). -/
def sum_counts {α : Type} (l : List (α × Nat)) : Nat :=
  (l.map Prod.snd).sum

/-- The number of blank lines of the input: empty after stripping.  These
are the lines the loop skips with `continue`. -/
def blank_count (lines : List (List Char)) : Nat :=
  lines.countP (fun l => decide (pyStrip l = []))

/-- The clock-independent content of a report: every field except
`generated_at`. -/
def report_data (r : Report) :
    String × Nat × Nat × Nat × List (Level × Nat) × List (List Char × Nat) :=
  (r.file, r.total_lines, r.parsed_lines, r.invalid_lines, r.level_counts, r.top_error_paths)

example : log_match "2026-02-18 07:01:05 ERROR service=api msg=\"request failed\" method=POST path=/login status=500 ms=231".data
    = some { level := Level.ERROR, path := some "/login".data } := by decide

example : log_match "2026-02-18 07:01:06 INFO path=/home".data
    = some { level := Level.INFO, path := some "/home".data } := by decide

example : log_match "not a log line".data = none := by decide

example : log_match "2026-02-18 07:01:06 INFO no path here at all".data = none := by decide

example : log_match "2026-02-18 07:01:06 INFO xpath=/a path= done".data
    = some { level := Level.INFO, path := none } := by decide

example : log_match "2026-02-18 07:01:05 ERROR".data = none := by decide

example : log_match "2026-02-18 07:01:05 ERROR path=".data
    = some { level := Level.ERROR, path := none } := by decide

example : log_match "2026-02-18  07:01:05  WARNING  path=/x".data
    = some { level := Level.WARNING, path := some "/x".data } := by decide

example : log_match "2026-02-188 07:01:05 INFO path=/x".data = none := by decide

example : log_match "2026-02-18 07:01:055 INFO path=/x".data = none := by decide

example : log_match "2026-02-18 07:01:05 INFORMATIONAL path=/x".data = none := by decide

example : log_match "2026-02-18 07:01:05 INFO msg=\"see path=/a\" path=/b".data
    = some { level := Level.INFO, path := some "/a\"".data } := by decide

example : log_match "2026-02-18 07:01:05 INFO path=path=x".data
    = some { level := Level.INFO, path := some "path=x".data } := by decide

example : log_match (pyStrip "   2026-02-18 07:01:05 INFO path=/x".data)
    = some { level := Level.INFO, path := some "/x".data } := by decide

example :
    let lines := ["2026-02-18 07:01:05 ERROR service=api msg=\"x\" path=/login status=500".data,
                  "2026-02-18 07:01:06 INFO path=/home".data,
                  "not a log line".data]
    analyze_lines lines =
      { total_lines := 3, parsed_lines := 2, invalid_lines := 1
        level_counts := [(Level.ERROR, 1), (Level.INFO, 1)]
        error_paths := [("/login".data, 1)] } := by decide

example :
    most_common 1 [("/a".data, 2), ("/b".data, 1)] = [("/a".data, 2)] := by decide

example :
    most_common 2 [("x".data, 1), ("y".data, 1), ("z".data, 1)]
      = [("x".data, 1), ("y".data, 1)] := by decide

example : splitLines "a\nb".data = ["a".data, "b".data] := by decide

example : splitLines "a\n".data = ["a".data] := by decide

example : splitLines "".data = [] := by decide

example : splitLines "a\r\nb\rc".data = ["a".data, "b".data, "c".data] := by decide

example : utf8Decode [104, 105] = "hi".data := by decide

example : utf8Decode [0xC3, 0xA9] = "é".data := by decide

example : utf8Decode [0xFF, 0x41, 0xC2] = [repl, 'A', repl] := by decide

theorem decodeOne_length (b : Nat) (bs : List Nat) :
    (decodeOne b bs).2.length ≤ bs.length := by
  unfold decodeOne
  repeat' split
  all_goals simp_all
  all_goals omega

theorem step_total (st : AggState) (raw : List Char) :
    (step_line st raw).total_lines = st.total_lines + 1 := by
  unfold step_line
  repeat' split
  all_goals rfl

theorem step_parsed_invalid (st : AggState) (raw : List Char) :
    (step_line st raw).parsed_lines + (step_line st raw).invalid_lines
      = st.parsed_lines + st.invalid_lines + (if pyStrip raw = [] then 0 else 1) := by
  unfold step_line
  repeat' split
  all_goals simp_all
  all_goals omega

theorem sum_bump {α : Type} [DecidableEq α] (k : α) (l : List (α × Nat)) :
    sum_counts (bump k l) = sum_counts l + 1 := by
  induction l with
  | nil => rfl
  | cons e rest ih =>
    unfold bump
    split
    · simp [sum_counts]; omega
    · simp [sum_counts] at ih ⊢
      omega

theorem step_levelsum (st : AggState) (raw : List Char) :
    (step_line st raw).parsed_lines + sum_counts st.level_counts
      = st.parsed_lines + sum_counts (step_line st raw).level_counts := by
  unfold step_line
  repeat' split
  all_goals simp_all [sum_bump]
  all_goals omega

theorem fold_total : ∀ (lines : List (List Char)) (st : AggState),
    (List.foldl step_line st lines).total_lines = st.total_lines + lines.length := by
  intro lines
  induction lines with
  | nil => intro st; simp
  | cons l ls ih =>
    intro st
    simp only [List.foldl_cons, List.length_cons, ih, step_total]
    omega

theorem fold_parsed_invalid : ∀ (lines : List (List Char)) (st : AggState),
    (List.foldl step_line st lines).parsed_lines
      + (List.foldl step_line st lines).invalid_lines
      + blank_count lines
      = st.parsed_lines + st.invalid_lines + lines.length := by
  intro lines
  induction lines with
  | nil => intro st; simp [blank_count]
  | cons l ls ih =>
    intro st
    have hstep := step_parsed_invalid st l
    have hrec := ih (step_line st l)
    simp only [List.foldl_cons, List.length_cons, blank_count, List.countP_cons] at *
    by_cases h : pyStrip l = [] <;> simp [h] at hstep ⊢ <;> omega

theorem fold_levelsum : ∀ (lines : List (List Char)) (st : AggState),
    (List.foldl step_line st lines).parsed_lines + sum_counts st.level_counts
      = st.parsed_lines + sum_counts (List.foldl step_line st lines).level_counts := by
  intro lines
  induction lines with
  | nil => intro st; rfl
  | cons l ls ih =>
    intro st
    have hstep := step_levelsum st l
    have hrec := ih (step_line st l)
    simp only [List.foldl_cons] at *
    omega

theorem agg_partition (lines : List (List Char)) :
    (analyze_lines lines).total_lines
      = (analyze_lines lines).parsed_lines + (analyze_lines lines).invalid_lines
        + blank_count lines := by
  have h1 := fold_total lines initState
  have h2 := fold_parsed_invalid lines initState
  simp [analyze_lines, initState] at *
  omega

theorem agg_levelsum (lines : List (List Char)) :
    sum_counts (analyze_lines lines).level_counts = (analyze_lines lines).parsed_lines := by
  have h := fold_levelsum lines initState
  simp [analyze_lines, initState, sum_counts] at *
  omega

theorem findPath_some_ne_nil :
    ∀ (cs : List Char) (prev : Char) (p : List Char),
      findPath prev cs = some (some p) → p ≠ [] := by
  intro cs
  induction cs with
  | nil => intro prev p h; simp [findPath] at h
  | cons c rest ih =>
    intro prev p h
    unfold findPath at h
    split at h
    · dsimp only at h
      split at h
      · exact absurd h (by simp)
      · rename_i htok
        injection h with h1
        injection h1 with h2
        subst h2
        exact htok
    · exact ih c p h

theorem log_match_path_ne_nil (s : List Char) (r : LogRecord) (p : List Char)
    (h : log_match s = some r) (hp : r.path = some p) : p ≠ [] := by
  unfold log_match at h
  split at h
  · exact absurd h (by simp)
  · split at h
    · exact absurd h (by simp)
    · split at h
      · exact absurd h (by simp)
      · rename_i hfp
        injection h with h2
        subst h2
        simp only [LogRecord.path] at hp
        subst hp
        exact findPath_some_ne_nil _ _ _ hfp

theorem bump_forall {α : Type} [DecidableEq α] {P : α × Nat → Prop} (k : α)
    (l : List (α × Nat))
    (hP1 : P (k, 1))
    (hPsucc : ∀ k' n, P (k', n) → P (k', n + 1))
    (h : ∀ e ∈ l, P e) :
    ∀ e ∈ bump k l, P e := by
  induction l with
  | nil => intro e he; simp [bump] at he; subst he; exact hP1
  | cons hd tl ih =>
    intro e he
    unfold bump at he
    split at he
    · rcases List.mem_cons.mp he with h1 | h2
      · subst h1
        rename_i heq
        exact hPsucc hd.1 hd.2 (h (hd.1, hd.2) (by simp))
      · exact h e (List.mem_cons_of_mem hd h2)
    · rcases List.mem_cons.mp he with h1 | h2
      · subst h1; exact h hd (by simp)
      · exact ih (fun e' he' => h e' (List.mem_cons_of_mem hd he')) e h2

theorem step_level_pos (st : AggState) (raw : List Char)
    (h : ∀ e ∈ st.level_counts, 1 ≤ e.2) :
    ∀ e ∈ (step_line st raw).level_counts, 1 ≤ e.2 := by
  unfold step_line
  repeat' split
  all_goals
    first
    | exact h
    | exact bump_forall _ _ (by omega) (fun k' n hn => by omega) h

theorem agg_level_pos : ∀ (lines : List (List Char)) (st : AggState),
    (∀ e ∈ st.level_counts, 1 ≤ e.2) →
    ∀ e ∈ (List.foldl step_line st lines).level_counts, 1 ≤ e.2 := by
  intro lines
  induction lines with
  | nil => intro st h; exact h
  | cons l ls ih =>
    intro st h
    simp only [List.foldl_cons]
    exact ih (step_line st l) (step_level_pos st l h)

theorem step_error_inv (st : AggState) (raw : List Char)
    (h : ∀ e ∈ st.error_paths, e.1 ≠ [] ∧ 1 ≤ e.2) :
    ∀ e ∈ (step_line st raw).error_paths, e.1 ≠ [] ∧ 1 ≤ e.2 := by
  unfold step_line
  split
  · exact h
  · split
    · exact h
    · rename_i r hm
      split
      · rename_i p hp
        split
        · exact bump_forall p st.error_paths
            ⟨log_match_path_ne_nil _ r p hm hp, by omega⟩
            (fun k' n hn => ⟨hn.1, by omega⟩) h
        · exact h
      · exact h

theorem agg_error_inv : ∀ (lines : List (List Char)) (st : AggState),
    (∀ e ∈ st.error_paths, e.1 ≠ [] ∧ 1 ≤ e.2) →
    ∀ e ∈ (List.foldl step_line st lines).error_paths, e.1 ≠ [] ∧ 1 ≤ e.2 := by
  intro lines
  induction lines with
  | nil => intro st h; exact h
  | cons l ls ih =>
    intro st h
    simp only [List.foldl_cons]
    exact ih (step_line st l) (step_error_inv st l h)

theorem filter_orderedInsert {α : Type} (c : Nat) (a : α × Nat) (l : List (α × Nat)) :
    (List.orderedInsert cge a l).filter (fun x => decide (x.2 = c))
      = ((a :: l).filter (fun x => decide (x.2 = c))) := by
  induction l with
  | nil => rfl
  | cons b t ih =>
    unfold List.orderedInsert
    split
    · rfl
    · rename_i hnot
      have hab : a.2 < b.2 := by
        unfold cge at hnot
        omega
      by_cases ha : a.2 = c <;> by_cases hb : b.2 = c
      · omega
      · simp only [List.filter_cons, ha, hb, ih, decide_True, decide_False]
        simp [hb]
      · simp only [List.filter_cons, ih]
        simp [ha, hb]
      · simp only [List.filter_cons, ih]
        simp [ha, hb]

theorem filter_sortDesc {α : Type} (c : Nat) (l : List (α × Nat)) :
    (sortDesc l).filter (fun x => decide (x.2 = c))
      = l.filter (fun x => decide (x.2 = c)) := by
  induction l with
  | nil => rfl
  | cons a t ih =>
    unfold sortDesc List.insertionSort
    rw [filter_orderedInsert]
    unfold sortDesc at ih
    simp only [List.filter_cons, ih]

/-- C3: for every input file, after aggregation
`total_lines = parsed_lines + invalid_lines + blank_lines_skipped`, where a
line is blank when it is empty after trimming whitespace; blank lines
count toward `total_lines` but toward neither `parsed_lines` nor
`invalid_lines`. -/
theorem claim_C3_line_partition (contents : List Nat) (clock file_path : String) (n : Int) :
    (build_report clock file_path (analyze_lines (splitLines (utf8Decode contents))) n).total_lines
      = (build_report clock file_path (analyze_lines (splitLines (utf8Decode contents))) n).parsed_lines
        + (build_report clock file_path (analyze_lines (splitLines (utf8Decode contents))) n).invalid_lines
        + blank_count (splitLines (utf8Decode contents)) :=
  agg_partition (splitLines (utf8Decode contents))

/-- C4: for every input file, the sum of the values of `level_counts`
equals `parsed_lines` after aggregation. -/
theorem claim_C4_levelsum (contents : List Nat) (clock file_path : String) (n : Int) :
    sum_counts (build_report clock file_path (analyze_lines (splitLines (utf8Decode contents))) n).level_counts
      = (build_report clock file_path (analyze_lines (splitLines (utf8Decode contents))) n).parsed_lines :=
  agg_levelsum (splitLines (utf8Decode contents))

/-- C5: for every final aggregate state and requested N, `top_error_paths`
is the prefix of length at most N of the stable descending sort of
`error_path_counts`: the sort is a permutation of the entries, weakly
decreasing in count, and entries of equal count keep their first-insertion
order (the count-`c` entries of the sorted list are exactly those of the
original list, in the same order); when N ≤ 0 the list is empty. -/
theorem claim_C5_top_paths (st : AggState) (clock file_path : String) (n : Int) :
    List.Perm (sortDesc st.error_paths) st.error_paths
    ∧ List.Sorted cge (sortDesc st.error_paths)
    ∧ (∀ c, (sortDesc st.error_paths).filter (fun x => decide (x.2 = c))
          = st.error_paths.filter (fun x => decide (x.2 = c)))
    ∧ (build_report clock file_path st n).top_error_paths
        = (sortDesc st.error_paths).take n.toNat
    ∧ (build_report clock file_path st n).top_error_paths.length ≤ n.toNat
    ∧ (n ≤ 0 → (build_report clock file_path st n).top_error_paths = []) := by
  refine ⟨List.perm_insertionSort cge st.error_paths,
          List.sorted_insertionSort cge st.error_paths,
          fun c => filter_sortDesc c st.error_paths,
          rfl,
          List.length_take_le n.toNat (sortDesc st.error_paths),
          fun hn => ?_⟩
  simp [build_report, most_common, Int.toNat_of_nonpos hn]

theorem claim_C5_top_paths_witness :
    (build_report "1970-01-01T00:00:00Z" "app.log"
      { total_lines := 1, parsed_lines := 1, invalid_lines := 0,
        level_counts := [(Level.ERROR, 1)], error_paths := [("/a".data, 1)] }
      (-1)).top_error_paths = [] :=
  (claim_C5_top_paths
    { total_lines := 1, parsed_lines := 1, invalid_lines := 0,
      level_counts := [(Level.ERROR, 1)], error_paths := [("/a".data, 1)] }
    "1970-01-01T00:00:00Z" "app.log" (-1)).2.2.2.2.2 (by decide)

/-- C6: for a source path that does not name an existing file, the run
fails with the file-not-found error before any aggregation, and no output
file is created or modified. -/
theorem claim_C6_missing_source (contents : List Nat) (clock file_path : String) (n : Int) :
    run_main false clock file_path contents n = Except.error RunError.fileNotFound
    ∧ writes_of (run_main false clock file_path contents n) = [] :=
  ⟨rfl, rfl⟩

/-- C8: two runs of the analysis on identical file contents produce
identical reports except possibly `generated_at`: every clock-independent
field (`file`, `total_lines`, `parsed_lines`, `invalid_lines`,
`level_counts`, `top_error_paths`) coincides. -/
theorem claim_C8_deterministic (contents : List Nat) (file_path : String) (n : Int)
    (t1 t2 : String) :
    (analyze_log true t1 file_path contents n).map report_data
      = (analyze_log true t2 file_path contents n).map report_data :=
  rfl

/-- C9: for every existing source file, whatever its byte content
(including bytes that are not valid UTF-8), the analysis completes and
returns a report: decoding replaces undecodable bytes instead of failing,
so no content can abort the run. -/
theorem claim_C9_total_on_bytes (contents : List Nat) (clock file_path : String) (n : Int) :
    ∃ r : Report, analyze_log true clock file_path contents n = Except.ok r :=
  ⟨_, rfl⟩

/-- C1 counterexample: the line
`2026-02-18 07:01:06 INFO no path here at all` carries a valid timestamp
and severity token (the timestamp and severity parts of the pattern
succeed) and has no `path=` field, yet `LOG_RE` fails on it — the literal
`path=` is mandatory, only the captured token is optional — so the
aggregation counts it invalid, not parsed, contradicting the claim. -/
theorem claim_C1_counterexample :
    ((matchTs "2026-02-18 07:01:06 INFO no path here at all".data).bind matchLevel).isSome = true
    ∧ log_match "2026-02-18 07:01:06 INFO no path here at all".data = none
    ∧ (step_line initState "2026-02-18 07:01:06 INFO no path here at all".data).parsed_lines = 0
    ∧ (step_line initState "2026-02-18 07:01:06 INFO no path here at all".data).invalid_lines = 1 := by
  decide

/-- C1 amended: a line whose timestamp and severity parts match but whose
remainder contains no word-boundary `path=` occurrence fails the whole
pattern and is counted invalid (parsed stays unchanged); `path = none`
records arise only from a present `path=` marker with an empty token. -/
theorem claim_C1_no_path_is_invalid (raw : List Char) (st : AggState)
    (rest : List Char) (lvl : Level) (rest2 : List Char)
    (hts : matchTs (pyStrip raw) = some rest)
    (hlvl : matchLevel rest = some (lvl, rest2))
    (hfp : findPath ' ' rest2 = none) :
    log_match (pyStrip raw) = none
    ∧ (step_line st raw).invalid_lines = st.invalid_lines + 1
    ∧ (step_line st raw).parsed_lines = st.parsed_lines := by
  have hm : log_match (pyStrip raw) = none := by
    unfold log_match
    rw [hts]
    dsimp only
    rw [hlvl]
    dsimp only
    rw [hfp]
  have hne : pyStrip raw ≠ [] := by
    intro h0
    rw [h0, show matchTs [] = none from rfl] at hts
    exact Option.noConfusion hts
  refine ⟨hm, ?_, ?_⟩ <;> (unfold step_line; rw [if_neg hne, hm])

theorem claim_C1_no_path_is_invalid_witness :
    log_match (pyStrip "2026-02-18 07:01:06 INFO no path here at all".data) = none
    ∧ (step_line initState "2026-02-18 07:01:06 INFO no path here at all".data).invalid_lines
        = initState.invalid_lines + 1
    ∧ (step_line initState "2026-02-18 07:01:06 INFO no path here at all".data).parsed_lines
        = initState.parsed_lines :=
  claim_C1_no_path_is_invalid "2026-02-18 07:01:06 INFO no path here at all".data initState
    "INFO no path here at all".data Level.INFO "no path here at all".data
    (by decide) (by decide) (by decide)

/-- C2 counterexample: on an empty input file the report's `level_counts`
is the empty mapping — `dict(Counter())` holds no keys at all — not a
mapping with the three keys present at 0 as the claim states. -/
theorem claim_C2_counterexample :
    (build_report "1970-01-01T00:00:00Z" "empty.log"
        (analyze_lines (splitLines (utf8Decode []))) 5).level_counts = []
    ∧ (build_report "1970-01-01T00:00:00Z" "empty.log"
        (analyze_lines (splitLines (utf8Decode []))) 5).top_error_paths = [] := by
  decide

/-- C2 amended: the report's `level_counts` holds a key only for levels
with at least one parsed line (every stored count is ≥ 1); an empty input
yields the empty mapping; the renderers nevertheless show all three
levels because they read missing keys as 0. -/
theorem claim_C2_level_keys (lines : List (List Char)) (clock file_path : String)
    (n : Int) (lvl : Level) (c : Nat) :
    ((lvl, c) ∈ (build_report clock file_path (analyze_lines lines) n).level_counts → 1 ≤ c)
    ∧ (build_report clock file_path (analyze_lines []) n).level_counts = []
    ∧ LEVELS.map (counter_get (build_report clock file_path (analyze_lines []) n).level_counts)
        = [0, 0, 0] := by
  refine ⟨fun hmem => ?_, rfl, rfl⟩
  exact agg_level_pos lines initState (by intro e he; simp [initState] at he) (lvl, c) hmem

theorem claim_C2_level_keys_witness : (1 : Nat) ≤ 1 :=
  (claim_C2_level_keys ["2026-02-18 07:01:06 INFO path=/home".data]
    "1970-01-01T00:00:00Z" "app.log" 5 Level.INFO 1).1 (by decide)

set_option maxRecDepth 8000 in
/-- C7 counterexample: for a report with no error paths (empty input), the
HTML document — the human-readable rendered document of
`save_html_report` — contains no `(none)` empty-state message anywhere: the
top-error-paths table is rendered as a bare header row.  Only the stdout
summary of `print_summary` prints `(none)`. -/
theorem claim_C7_counterexample :
    (build_report "1970-01-01T00:00:00Z" "app.log" (analyze_lines []) 5).top_error_paths = []
    ∧ hasSub "(none)".data
        (html_content (build_report "1970-01-01T00:00:00Z" "app.log" (analyze_lines []) 5)).data
        = false
    ∧ "  (none)" ∈ print_summary (build_report "1970-01-01T00:00:00Z" "app.log" (analyze_lines []) 5) := by
  decide

/-- C7 amended: when `top_error_paths` is empty, the stdout summary prints
the explicit `  (none)` line, while the HTML renderer emits no table rows
at all (and no empty-state message): its table body is empty. -/
theorem claim_C7_empty_state (r : Report) (h : r.top_error_paths = []) :
    "  (none)" ∈ print_summary r
    ∧ html_rows r.top_error_paths = "" := by
  constructor
  · simp [print_summary, h]
  · rw [h]
    rfl

theorem claim_C7_empty_state_witness :
    "  (none)" ∈ print_summary (build_report "1970-01-01T00:00:00Z" "app.log" (analyze_lines []) 5)
    ∧ html_rows (build_report "1970-01-01T00:00:00Z" "app.log" (analyze_lines []) 5).top_error_paths
        = "" :=
  claim_C7_empty_state _ (by decide)

/-- C10: a line that matches with a `path=` marker but an empty token
yields `path = None`, is counted parsed, and never touches
`error_paths` (the `level == "ERROR" and path` guard rejects a falsy
path); consequently every `(path, count)` pair of `top_error_paths` has a
non-empty path and a count of at least 1. -/
theorem claim_C10_empty_path_token (contents : List Nat) (clock file_path : String) (n : Int)
    (raw : List Char) (st : AggState) (r : LogRecord) (p : List Char) (c : Nat) :
    (log_match (pyStrip raw) = some r → r.path = none →
      (step_line st raw).parsed_lines = st.parsed_lines + 1
      ∧ (step_line st raw).error_paths = st.error_paths)
    ∧ ((p, c) ∈ (build_report clock file_path
          (analyze_lines (splitLines (utf8Decode contents))) n).top_error_paths
        → p ≠ [] ∧ 1 ≤ c) := by
  constructor
  · intro hm hpath
    have hne : pyStrip raw ≠ [] := by
      intro h0
      rw [h0, show log_match [] = none from rfl] at hm
      exact Option.noConfusion hm
    unfold step_line
    rw [if_neg hne, hm]
    dsimp only
    rw [hpath]
    exact ⟨rfl, rfl⟩
  · intro hmem
    have e : (build_report clock file_path
          (analyze_lines (splitLines (utf8Decode contents))) n).top_error_paths
        = (sortDesc (analyze_lines (splitLines (utf8Decode contents))).error_paths).take n.toNat :=
      rfl
    rw [e] at hmem
    have h1 := List.take_subset n.toNat
      (sortDesc (analyze_lines (splitLines (utf8Decode contents))).error_paths) hmem
    have h2 := (List.perm_insertionSort cge
      (analyze_lines (splitLines (utf8Decode contents))).error_paths).mem_iff.mp h1
    exact agg_error_inv (splitLines (utf8Decode contents)) initState
      (by intro e' he'; simp [initState] at he') (p, c) h2

theorem claim_C10_empty_path_token_witness :
    ((step_line initState "2026-02-18 07:01:05 ERROR path=".data).parsed_lines
        = initState.parsed_lines + 1
      ∧ (step_line initState "2026-02-18 07:01:05 ERROR path=".data).error_paths
        = initState.error_paths)
    ∧ ("/login".data ≠ [] ∧ 1 ≤ 1) :=
  ⟨(claim_C10_empty_path_token
      ("2026-02-18 07:01:05 ERROR path=/login".data.map Char.toNat)
      "1970-01-01T00:00:00Z" "app.log" 5
      "2026-02-18 07:01:05 ERROR path=".data initState
      { level := Level.ERROR, path := none } "/login".data 1).1 (by decide) rfl,
   (claim_C10_empty_path_token
      ("2026-02-18 07:01:05 ERROR path=/login".data.map Char.toNat)
      "1970-01-01T00:00:00Z" "app.log" 5
      "2026-02-18 07:01:05 ERROR path=".data initState
      { level := Level.ERROR, path := none } "/login".data 1).2 (by decide)⟩
